import Mathlib

/- Verification of the NovelWeaver chapter acquisition engine against its
   specification.  The definitions below are a shallow embedding of the
   retry policy in src/services/geminiService.ts and of the session
   controller (search, chapter loader, batch download loop, export
   compiler) in the main App component.  Asynchronous effects are made
   explicit: the oracle is a function from the request data to a settled
   outcome, React state updates become explicit state threading, and the
   abortFetchRef cancellation flag becomes a function giving its value at
   each successive read. -/

/-- Does the pattern occur at the head of the text?  Helper for the model of
JS String.prototype.includes. -/
def subHere : List Char → List Char → Bool
  | [], _ => true
  | _ :: _, [] => false
  | a :: p, b :: s => a == b && subHere p s

/-- Does the pattern occur anywhere in the text? -/
def hasSub (p : List Char) : List Char → Bool
  | [] => p.isEmpty
  | b :: s => subHere p (b :: s) || hasSub p s

/-- Model of JS s.includes(pat), over the character lists. -/
def strContains (s pat : String) : Bool := hasSub pat.data s.data

/-- A thrown JS error as inspected by retryWithBackoff: its optional numeric
status, optional numeric code and optional message string. -/
structure JsError where
  status : Option Nat
  code : Option Nat
  message : Option String
deriving DecidableEq

/-- geminiService.ts retryWithBackoff: classification of a failure as
rate-limiting — status 429, code 429, or a message containing "429",
"quota" or "exhausted". -/
def isRateLimit (e : JsError) : Bool :=
  e.status == some 429 || e.code == some 429 ||
    (match e.message with
     | none => false
     | some m => strContains m ("429") || strContains m ("quota") || strContains m ("exhausted"))

/-- Outcome of the retry wrapper when it fails: the distinct quota-exceeded
error raised when the attempt budget is exhausted on a persistent rate-limit
failure, a re-thrown original error, or the post-loop fallback error (only
reachable with a zero attempt budget). -/
inductive RetryFailure where
  | quotaExceeded
  | raised (e : JsError)
  | fallback
deriving DecidableEq

/-- The loop of geminiService.ts retryWithBackoff.  `i` is the current
attempt index, `delay` the current backoff delay, `remaining` the attempts
left (maxRetries - i).  `op i` is the settled outcome of the i-th attempt of
the wrapped operation.  Returns the overall result together with the list of
delays actually waited between attempts, in order. -/
def retryAux {α : Type} (op : Nat → Except JsError α) (maxRetries : Nat) :
    Nat → Nat → Nat → Except RetryFailure α × List Nat
  | _, _, 0 => (Except.error RetryFailure.fallback, [])
  | i, delay, remaining + 1 =>
    match op i with
    | Except.ok v => (Except.ok v, [])
    | Except.error e =>
      if isRateLimit e then
        if i = maxRetries - 1 then (Except.error RetryFailure.quotaExceeded, [])
        else
          let r := retryAux op maxRetries (i + 1) (delay * 2) remaining
          (r.1, delay :: r.2)
      else (Except.error (RetryFailure.raised e), [])

/-- geminiService.ts retryWithBackoff; both oracle operations call it with
maxRetries = 3 and initialDelay = 2000 (the defaults). -/
def retryWithBackoff {α : Type} (op : Nat → Except JsError α)
    (maxRetries initialDelay : Nat) : Except RetryFailure α × List Nat :=
  retryAux op maxRetries 0 initialDelay maxRetries

/-- C1: a failure classified as rate-limiting is retried up to a total of 3
attempts with delays of exactly 2000ms then 4000ms between attempts; a
non-rate-limit failure propagates immediately without any retry (no delay is
waited); a rate-limit failure on the 3rd attempt raises the distinct
quota-exceeded error rather than making a 4th attempt (the outcome is fixed
by the first three attempts alone); and a success after 2 rate-limit
failures succeeds overall, having waited 2000ms then 4000ms. -/
theorem C1_retryPolicy {α : Type} (opA opB opC : Nat → Except JsError α)
    (eA0 eA1 eB : JsError) (v : α)
    (hA0 : opA 0 = Except.error eA0) (hA0r : isRateLimit eA0 = true)
    (hA1 : opA 1 = Except.error eA1) (hA1r : isRateLimit eA1 = true)
    (hA2 : opA 2 = Except.ok v)
    (hB0 : opB 0 = Except.error eB) (hBr : isRateLimit eB = false)
    (hC : ∀ i, i < 3 → ∃ ec, opC i = Except.error ec ∧ isRateLimit ec = true) :
    retryWithBackoff opA 3 2000 = (Except.ok v, [2000, 4000])
    ∧ retryWithBackoff opB 3 2000 = (Except.error (RetryFailure.raised eB), [])
    ∧ retryWithBackoff opC 3 2000 = (Except.error RetryFailure.quotaExceeded, [2000, 4000]) := by
  obtain ⟨e0, h0, h0r⟩ := hC 0 (by omega)
  obtain ⟨e1, h1, h1r⟩ := hC 1 (by omega)
  obtain ⟨e2, h2, h2r⟩ := hC 2 (by omega)
  refine ⟨?_, ?_, ?_⟩ <;>
    simp [retryWithBackoff, retryAux, hA0, hA0r, hA1, hA1r, hA2, hB0, hBr,
      h0, h0r, h1, h1r, h2, h2r]

def wErrRate : JsError := { status := some 429, code := none, message := none }

def wErrPlain : JsError := { status := some 500, code := none, message := some ("boom") }

def wOpA : Nat → Except JsError Nat := fun i =>
  if i < 2 then Except.error wErrRate else Except.ok 7

def wOpB : Nat → Except JsError Nat := fun _ => Except.error wErrPlain

def wOpC : Nat → Except JsError Nat := fun _ => Except.error wErrRate

/-- Witness for C1 at a concrete script of attempt outcomes. -/
theorem C1_retryPolicy_witness :
    retryWithBackoff wOpA 3 2000 = (Except.ok 7, [2000, 4000])
    ∧ retryWithBackoff wOpB 3 2000 = (Except.error (RetryFailure.raised wErrPlain), [])
    ∧ retryWithBackoff wOpC 3 2000 = (Except.error RetryFailure.quotaExceeded, [2000, 4000]) :=
  C1_retryPolicy wOpA wOpB wOpC wErrRate wErrRate wErrPlain 7
    rfl (by decide) rfl (by decide) rfl rfl (by decide)
    (fun _ _ => ⟨wErrRate, rfl, by decide⟩)

/-- Chapter status state machine (types.ts). -/
inductive Status where
  | pending
  | loading
  | completed
  | error
deriving DecidableEq

/-- A chapter record of the manifest (types.ts Chapter).  The UUID ids
produced by crypto.randomUUID are modelled as abstract natural numbers. -/
structure Chapter where
  id : Nat
  number : Nat
  title : String
  content : Option String
  status : Status
  errorMessage : Option String
  sourceUrl : Option String
deriving DecidableEq

/-- JS truthiness of a nullable string: null and "" are falsy. -/
def strTruthy : Option String → Bool
  | none => false
  | some s => !(s == "")

/-- JS `x || d` on a nullable number: undefined and 0 are falsy and give the
default. -/
def jsOrNat : Option Nat → Nat → Nat
  | none, d => d
  | some n, d => if n = 0 then d else n

/-- JS `x || d` on a nullable string: undefined and "" give the default. -/
def jsOrStr : Option String → String → String
  | none, d => d
  | some s, d => if s = "" then d else s

/-- Model of JS String.prototype.trim over the character list (kept
kernel-executable, unlike the position-based String.trim). -/
def jsTrim (s : String) : String :=
  ⟨((s.data.dropWhile Char.isWhitespace).reverse.dropWhile Char.isWhitespace).reverse⟩

/-- Result of fetchNovelMetadata as consumed by handleSearch.  totalChapters
is optional: the oracle may omit the estimate. -/
structure Metadata where
  «exists» : Bool
  title : String
  author : String
  totalChapters : Option Nat
  chapterTitles : List String
deriving DecidableEq

/-- Successful result of fetchChapterContent. -/
structure ChapterOk where
  content : String
  title : String
  sourceUrl : Option String
deriving DecidableEq

/-- A failure escaping an oracle call, as observed through its message
property by the catch blocks of the App component (the message of a plain
JS error may be absent). -/
structure OracleFailure where
  message : Option String
deriving DecidableEq

/-- The NovelState slice of the App component state driven by the engine. -/
structure AppState where
  title : String
  author : String
  totalChaptersEstimate : Nat
  chapters : List Chapter
  isFetchingList : Bool
  currentChapterId : Option Nat
deriving DecidableEq

/-- App.handleSearch, manifest construction: Array.from of length
totalChapters, records numbered i+1, titled from chapterTitles by position
when available else the placeholder, status pending.  `ids` models
crypto.randomUUID as a supply of ids per position. -/
def buildChapters (ids : Nat → Nat) (totalChapters : Nat)
    (chapterTitles : List String) : List Chapter :=
  (List.range totalChapters).map (fun i =>
    { id := ids i
      number := i + 1
      title := if h : i < chapterTitles.length then chapterTitles.get ⟨i, h⟩
               else ("Chapter " ++ toString (i + 1))
      content := none
      status := Status.pending
      errorMessage := none
      sourceUrl := none })

/-- App.handleSearch: input validation, optimistic clearing of the manifest
before the oracle call, then either installation of the new manifest or
error surfacing.  `oracleRes` is the settled outcome of fetchNovelMetadata.
Returns the new state together with the errorMsg set (none on success). -/
def handleSearch (ids : Nat → Nat) (oracleRes : Except OracleFailure Metadata)
    (searchInput : String) (st : AppState) : AppState × Option String :=
  let trimmed := jsTrim searchInput
  if trimmed = "" then (st, some ("Please enter a novel name."))
  else if trimmed.length < 2 then
    (st, some ("Novel name is too short. Please enter a valid name."))
  else
    let st1 : AppState :=
      { st with isFetchingList := true, title := trimmed, author := "",
                chapters := [], currentChapterId := none }
    match oracleRes with
    | Except.error err =>
      ({ st1 with isFetchingList := false },
       some (jsOrStr err.message ("Failed to find novel. Network error or service unavailable.")))
    | Except.ok md =>
      if md.«exists» then
        let total := jsOrNat md.totalChapters 100
        let newChapters := buildChapters ids total md.chapterTitles
        ({ st1 with
            title := md.title
            author := md.author
            totalChaptersEstimate := total
            isFetchingList := false
            chapters := newChapters
            currentChapterId :=
              match newChapters with
              | [] => none
              | c :: _ => some c.id },
         none)
      else
        ({ st1 with isFetchingList := false },
         some ("Novel not found on supported sites (readernovel, lightnovelpub, novelbin)."))

/-- App.loadChapterContent, phase 1: the synchronous optimistic update that
sets the record (looked up by id) to loading and clears its errorMessage
before the network call begins. -/
def markLoading (cid : Nat) (chs : List Chapter) : List Chapter :=
  chs.map (fun c =>
    if c.id == cid then { c with status := Status.loading, errorMessage := none } else c)

/-- App.loadChapterContent, phase 2: fold the settled fetch outcome into the
record looked up by id.  Success sets content, the resolved title, status
completed and sourceUrl; failure sets status error and errorMessage, leaving
content and title untouched. -/
def applyFetchOutcome (cid : Nat) (r : Except OracleFailure ChapterOk)
    (chs : List Chapter) : List Chapter :=
  chs.map (fun c =>
    if c.id == cid then
      match r with
      | Except.ok res =>
        { c with content := some res.content, title := res.title,
                 status := Status.completed, sourceUrl := res.sourceUrl }
      | Except.error err => { c with status := Status.error, errorMessage := err.message }
    else c)

/-- App.loadChapterContent: mark the record loading, await the chapter
oracle (`oracle n` is the settled outcome of fetchChapterContent for chapter
n), fold the outcome into the record, and return the boolean success signal
(true on success, false on any failure; no failure escapes). -/
def loadChapterContent (oracle : Nat → Except OracleFailure ChapterOk)
    (chs : List Chapter) (ch : Chapter) : List Chapter × Bool :=
  let chs1 := markLoading ch.id chs
  match oracle ch.number with
  | Except.ok res => (applyFetchOutcome ch.id (Except.ok res) chs1, true)
  | Except.error err => (applyFetchOutcome ch.id (Except.error err) chs1, false)

/-- App.handleDownloadRange step 1: the chapters of the live manifest whose
number lies in the inclusive range (targetIndices, keeping the records). -/
def targetOf (chapters : List Chapter) (s e : Nat) : List Chapter :=
  chapters.filter (fun c => decide (s ≤ c.number) && decide (c.number ≤ e))

/-- App.handleDownloadRange step 2: the in-range chapters still needing a
fetch.  The filter is on JS-truthy content, not on status. -/
def toFetchOf (chapters : List Chapter) (s e : Nat) : List Chapter :=
  (targetOf chapters s e).filter (fun c => !(strTruthy c.content))

/-- The sequential fetch loop of App.handleDownloadRange.  `abort i` is the
value of abortFetchRef.current at its i-th read: one read before each
iteration, and one more after the loop for the export decision.  Returns the
final chapters, the numbers of the chapters actually fetched in order, and
the index of the read at which the loop stopped. -/
def batchLoop (oracle : Nat → Except OracleFailure ChapterOk) (abort : Nat → Bool) :
    Nat → List Chapter → List Chapter → List Chapter × List Nat × Nat
  | i, chs, [] => (chs, [], i)
  | i, chs, c :: rest =>
    if abort i then (chs, [], i)
    else
      let step := loadChapterContent oracle chs c
      let r := batchLoop oracle abort (i + 1) step.1 rest
      (r.1, c.number :: r.2.1, r.2.2)

/-- Ordering used by generateRangeDownload's comparator
(a, b) => a.number - b.number. -/
def chapterLE (a b : Chapter) : Prop := a.number ≤ b.number

instance : DecidableRel chapterLE := fun a b => Nat.decLe a.number b.number

instance : IsTotal Chapter chapterLE := ⟨fun a b => Nat.le_total a.number b.number⟩

instance : IsTrans Chapter chapterLE := ⟨fun _ _ _ h1 h2 => Nat.le_trans h1 h2⟩

/-- App.generateRangeDownload: the in-range records carrying JS-truthy
content (validChapters). -/
def validChaptersOf (chapters : List Chapter) (s e : Nat) : List Chapter :=
  (targetOf chapters s e).filter (fun c => strTruthy c.content)

/-- The document header built by App.generateRangeDownload: title, optional
author, chapter range, generator tag. -/
def exportHeader (title author : String) (s e : Nat) : String :=
  "# " ++ title ++ "\n" ++
    (if author = "" then ("") else ("**Author:** " ++ author ++ "\n")) ++
    "**Chapters:** " ++ toString s ++ " - " ++ toString e ++ "\n" ++
    "**Generated by:** NovelWeaver AI\n\n***\n\n"

/-- One exported section per chapter: title heading, content body,
separator. -/
def sectionText (c : Chapter) : String :=
  "## " ++ c.title ++ "\n\n" ++ c.content.getD ("") ++ "\n\n***\n\n"

/-- The content-bearing selection sorted by chapter number ascending, as
iterated by the export (the JS stable sort is modelled by insertion
sort). -/
def sortedValidOf (chapters : List Chapter) (s e : Nat) : List Chapter :=
  List.insertionSort chapterLE (validChaptersOf chapters s e)

/-- App.generateRangeDownload.  none models the empty-export error path (an
error message is surfaced and no file is produced); some gives the full
document text.  The function reads the chapter records and produces a
string; no record is modified. -/
def generateRangeDownload (title author : String) (chapters : List Chapter)
    (s e : Nat) : Option String :=
  let validChapters := validChaptersOf chapters s e
  if validChapters.length = 0 then none
  else some (exportHeader title author s e
    ++ String.join ((sortedValidOf chapters s e).map sectionText))

/-- Observable outcome of one run of App.handleDownloadRange.  exportFile is
the artifact produced (none when export was skipped by cancellation or
found no content); progress is the downloadProgress state at exit (a run can
only start while no other run is active, so it is none before the call and
the model reports the value the run leaves behind). -/
structure BatchOutcome where
  finalChapters : List Chapter
  fetched : List Nat
  exportAttempted : Bool
  exportFile : Option String
  progress : Option (Nat × Nat)
deriving DecidableEq

/-- App.handleDownloadRange.  The final chapters are the result of threading
the functional setState updates of each loadChapterContent call; the export
step, however, reads st.chapters — the chapters list captured by the
render-scope closure when the run started — not the final list (the stale
closure of the reference implementation). -/
def handleDownloadRange (oracle : Nat → Except OracleFailure ChapterOk)
    (abort : Nat → Bool) (st : AppState) (s e : Nat) : BatchOutcome :=
  let target := targetOf st.chapters s e
  if target.length = 0 then
    { finalChapters := st.chapters, fetched := [], exportAttempted := false,
      exportFile := none, progress := none }
  else
    let r := batchLoop oracle abort 0 st.chapters (toFetchOf st.chapters s e)
    let doExport := !(abort r.2.2)
    { finalChapters := r.1
      fetched := r.2.1
      exportAttempted := doExport
      exportFile :=
        if doExport then generateRangeDownload st.title st.author st.chapters s e
        else none
      progress := none }

/-- An abort signal that is never raised (an uncancelled run). -/
def noAbort : Nat → Bool := fun _ => false

/-- The net per-record effect of one batch iteration fetching chapter c. -/
def stepOf (oracle : Nat → Except OracleFailure ChapterOk) (c : Chapter) (x : Chapter) : Chapter :=
  if x.id == c.id then
    match oracle c.number with
    | Except.ok res =>
      { x with content := some res.content, title := res.title,
               status := Status.completed, sourceUrl := res.sourceUrl, errorMessage := none }
    | Except.error err => { x with status := Status.error, errorMessage := err.message }
  else x

lemma load_fst_eq_map (oracle : Nat → Except OracleFailure ChapterOk)
    (chs : List Chapter) (c : Chapter) :
    (loadChapterContent oracle chs c).1 = chs.map (stepOf oracle c) := by
  unfold loadChapterContent markLoading applyFetchOutcome
  cases h : oracle c.number <;>
  · simp only [List.map_map]
    refine List.map_congr_left (fun x _ => ?_)
    by_cases hid : x.id = c.id <;> simp [stepOf, Function.comp, hid, h]

/-- Composite per-record effect of fetching a list of chapters in order. -/
def compSteps (oracle : Nat → Except OracleFailure ChapterOk) : List Chapter → Chapter → Chapter
  | [], x => x
  | c :: cs, x => compSteps oracle cs (stepOf oracle c x)

lemma batchLoop_stopped (oracle : Nat → Except OracleFailure ChapterOk)
    (abort : Nat → Bool) (i : Nat) (chs L : List Chapter) (h : abort i = true) :
    batchLoop oracle abort i chs L = (chs, [], i) := by
  cases L <;> simp [batchLoop, h]

lemma batchLoop_of_false (oracle : Nat → Except OracleFailure ChapterOk)
    (abort : Nat → Bool) (L : List Chapter) :
    ∀ (i : Nat) (chs : List Chapter), (∀ j, abort j = false) →
      batchLoop oracle abort i chs L
        = (chs.map (compSteps oracle L), L.map (fun c => c.number), i + L.length) := by
  induction L with
  | nil => intro i chs _; simp [batchLoop, compSteps]
  | cons c rest ih =>
    intro i chs hab
    rw [batchLoop, if_neg (by simp [hab i])]
    dsimp only
    rw [ih (i + 1) (loadChapterContent oracle chs c).1 hab, load_fst_eq_map]
    simp [compSteps, List.map_map, Function.comp]
    omega

lemma batchLoop_abortAfter (oracle : Nat → Except OracleFailure ChapterOk) (abort : Nat → Bool) :
    ∀ (k i : Nat) (chs L : List Chapter),
      (∀ j, j ≤ k → abort (i + j) = false) → abort (i + (k + 1)) = true → k + 1 ≤ L.length →
      batchLoop oracle abort i chs L
        = (chs.map (compSteps oracle (L.take (k + 1))),
           (L.take (k + 1)).map (fun c => c.number), i + (k + 1)) := by
  intro k
  induction k with
  | zero =>
    intro i chs L hf ht hlen
    match L with
    | [] => simp at hlen
    | c :: rest =>
      have h0 : abort i = false := by simpa using hf 0 (le_refl 0)
      rw [batchLoop, if_neg (by simp [h0])]
      dsimp only
      rw [batchLoop_stopped oracle abort (i + 1) _ rest (by simpa using ht)]
      simp [compSteps, load_fst_eq_map]
  | succ k ih =>
    intro i chs L hf ht hlen
    match L with
    | [] => simp at hlen
    | c :: rest =>
      have h0 : abort i = false := by simpa using hf 0 (Nat.zero_le _)
      have hf1 : ∀ j, j ≤ k → abort ((i + 1) + j) = false := by
        intro j hj
        have hv := hf (j + 1) (by omega)
        have heq : i + (j + 1) = (i + 1) + j := by omega
        rwa [heq] at hv
      have ht1 : abort ((i + 1) + (k + 1)) = true := by
        have heq : i + (k + 1 + 1) = (i + 1) + (k + 1) := by omega
        rwa [heq] at ht
      have hlen1 : k + 1 ≤ rest.length := by simpa using hlen
      rw [batchLoop, if_neg (by simp [h0])]
      dsimp only
      rw [ih (i + 1) (loadChapterContent oracle chs c).1 rest hf1 ht1 hlen1, load_fst_eq_map]
      simp [compSteps, List.map_map, Function.comp, List.take_succ_cons]
      omega

lemma batchLoop_fetched_prefix (oracle : Nat → Except OracleFailure ChapterOk)
    (abort : Nat → Bool) :
    ∀ (L : List Chapter) (i : Nat) (chs : List Chapter),
      ∃ m, (batchLoop oracle abort i chs L).2.1 = (L.take m).map (fun c => c.number) := by
  intro L
  induction L with
  | nil => intro i chs; exact ⟨0, by simp [batchLoop]⟩
  | cons c rest ih =>
    intro i chs
    by_cases h : abort i = true
    · exact ⟨0, by simp [batchLoop, h]⟩
    · obtain ⟨m, hm⟩ := ih (i + 1) (loadChapterContent oracle chs c).1
      refine ⟨m + 1, ?_⟩
      rw [batchLoop, if_neg (by simp [h])]
      dsimp only
      simp [hm]

lemma stepOf_id_number (oracle : Nat → Except OracleFailure ChapterOk) (c x : Chapter) :
    (stepOf oracle c x).id = x.id ∧ (stepOf oracle c x).number = x.number := by
  unfold stepOf
  by_cases h : x.id = c.id <;> cases ho : oracle c.number <;> simp [h, ho]

lemma compSteps_id_number (oracle : Nat → Except OracleFailure ChapterOk) :
    ∀ (L : List Chapter) (x : Chapter),
      (compSteps oracle L x).id = x.id ∧ (compSteps oracle L x).number = x.number := by
  intro L
  induction L with
  | nil => intro x; simp [compSteps]
  | cons c cs ih =>
    intro x
    have h1 := stepOf_id_number oracle c x
    have h2 := ih (stepOf oracle c x)
    rw [compSteps]
    exact ⟨h2.1.trans h1.1, h2.2.trans h1.2⟩

lemma stepOf_status_of_id (oracle : Nat → Except OracleFailure ChapterOk)
    (c x : Chapter) (h : x.id = c.id) :
    (stepOf oracle c x).status = Status.completed ∨ (stepOf oracle c x).status = Status.error := by
  unfold stepOf
  cases ho : oracle c.number <;> simp [h, ho]

lemma stepOf_of_ne (oracle : Nat → Except OracleFailure ChapterOk)
    (c x : Chapter) (h : ¬ x.id = c.id) : stepOf oracle c x = x := by
  unfold stepOf
  simp [h]

lemma compSteps_status (oracle : Nat → Except OracleFailure ChapterOk) :
    ∀ (L : List Chapter) (x : Chapter),
      (compSteps oracle L x).status = Status.completed
      ∨ (compSteps oracle L x).status = Status.error
      ∨ (compSteps oracle L x = x ∧ ∀ c ∈ L, ¬ x.id = c.id) := by
  intro L
  induction L with
  | nil => intro x; right; right; exact ⟨rfl, by simp⟩
  | cons c cs ih =>
    intro x
    rw [compSteps]
    by_cases h : x.id = c.id
    · rcases ih (stepOf oracle c x) with h1 | h1 | h1
      · left; exact h1
      · right; left; exact h1
      · rcases stepOf_status_of_id oracle c x h with hs | hs
        · left; rw [h1.1]; exact hs
        · right; left; rw [h1.1]; exact hs
    · rw [stepOf_of_ne oracle c x h]
      rcases ih x with h1 | h1 | h1
      · left; exact h1
      · right; left; exact h1
      · right; right
        refine ⟨h1.1, ?_⟩
        intro c2 hc2
        rcases List.mem_cons.mp hc2 with hc2 | hc2
        · rw [hc2]; exact h
        · exact h1.2 c2 hc2

/-- C4: after an uncancelled batch run over a range, every chapter record
with number in the range has status completed or error — none is left
pending or loading.  The hypothesis hq is the quiescence of the starting
manifest: any in-range record already carrying content is completed or
error (content is only ever installed by a completed fetch, and a later
failed retry moves such a record to error). -/
theorem C4_batchSettlesRange (oracle : Nat → Except OracleFailure ChapterOk)
    (abort : Nat → Bool) (st : AppState) (s e : Nat)
    (hab : ∀ j, abort j = false)
    (hq : ∀ c ∈ st.chapters, s ≤ c.number → c.number ≤ e → strTruthy c.content = true →
          c.status = Status.completed ∨ c.status = Status.error) :
    ∀ c ∈ (handleDownloadRange oracle abort st s e).finalChapters,
      s ≤ c.number → c.number ≤ e →
      c.status = Status.completed ∨ c.status = Status.error := by
  intro y hy hs he
  unfold handleDownloadRange at hy
  by_cases htar : (targetOf st.chapters s e).length = 0
  · rw [if_pos htar] at hy
    dsimp only at hy
    have hmem : y ∈ targetOf st.chapters s e :=
      List.mem_filter.mpr ⟨hy, by simp [hs, he]⟩
    rw [List.length_eq_zero.mp htar] at hmem
    simp at hmem
  · rw [if_neg htar] at hy
    dsimp only at hy
    rw [batchLoop_of_false oracle abort _ 0 st.chapters hab] at hy
    dsimp only at hy
    obtain ⟨x, hx, hxy⟩ := List.mem_map.mp hy
    have hidnum := compSteps_id_number oracle (toFetchOf st.chapters s e) x
    rcases compSteps_status oracle (toFetchOf st.chapters s e) x with h1 | h1 | h1
    · left; rw [← hxy]; exact h1
    · right; rw [← hxy]; exact h1
    · have hyx : y = x := by rw [← hxy, h1.1]
      subst hyx
      have hxf : y ∉ toFetchOf st.chapters s e := fun hmem => h1.2 y hmem rfl
      have hxt : y ∈ targetOf st.chapters s e :=
        List.mem_filter.mpr ⟨hx, by simp [hs, he]⟩
      have hcontent : strTruthy y.content = true := by
        by_contra hc
        exact hxf (List.mem_filter.mpr ⟨hxt, by simp [Bool.not_eq_true] at hc; simp [hc]⟩)
      exact hq y hx hs he hcontent

def w4Done : Chapter :=
  { id := 1, number := 1, title := "T1", content := some ("body one"),
    status := Status.completed, errorMessage := none, sourceUrl := none }

def w4Pending : Chapter :=
  { id := 2, number := 2, title := "T2", content := none,
    status := Status.pending, errorMessage := none, sourceUrl := none }

def w4State : AppState :=
  { title := "N", author := "", totalChaptersEstimate := 2,
    chapters := [w4Done, w4Pending], isFetchingList := false, currentChapterId := none }

def w4Oracle : Nat → Except OracleFailure ChapterOk := fun n =>
  if n = 2 then Except.error { message := some ("nope") }
  else Except.ok { content := "text", title := "T", sourceUrl := none }

/-- Witness for C4 on a concrete two-chapter manifest, instantiated at the
record the failing fetch leaves in the final manifest. -/
theorem C4_batchSettlesRange_witness :
    ({ w4Pending with status := Status.error, errorMessage := some ("nope") } : Chapter).status
        = Status.completed
    ∨ ({ w4Pending with status := Status.error, errorMessage := some ("nope") } : Chapter).status
        = Status.error :=
  C4_batchSettlesRange w4Oracle noAbort w4State 1 2 (fun _ => rfl) (by decide)
    { w4Pending with status := Status.error, errorMessage := some ("nope") }
    (by decide) (by decide) (by decide)

/-- C5: the Chapter Loader synchronously sets the record's status to loading
and clears errorMessage before the oracle call (the state passed on to the
outcome step is exactly the loading-marked one, and records with other ids
are untouched); on oracle failure it sets status error and errorMessage from
the failure's message, leaves content and title untouched (the resulting
record inherits both from the input record), and returns false rather than
throwing — the loader is a total function into a boolean signal; on success
it sets content, the resolved title, status completed and sourceUrl, and
returns true. -/
theorem C5_loaderContract (oracle : Nat → Except OracleFailure ChapterOk)
    (chs : List Chapter) (ch : Chapter) :
    (∀ y ∈ markLoading ch.id chs, y.id = ch.id → y.status = Status.loading ∧ y.errorMessage = none)
    ∧ (∀ x ∈ chs, ¬ x.id = ch.id → x ∈ markLoading ch.id chs)
    ∧ (loadChapterContent oracle chs ch).1
        = applyFetchOutcome ch.id (oracle ch.number) (markLoading ch.id chs)
    ∧ (∀ err, oracle ch.number = Except.error err →
        (loadChapterContent oracle chs ch).2 = false
        ∧ ∀ x ∈ chs, x.id = ch.id →
            { x with status := Status.error, errorMessage := err.message }
              ∈ (loadChapterContent oracle chs ch).1)
    ∧ (∀ res, oracle ch.number = Except.ok res →
        (loadChapterContent oracle chs ch).2 = true
        ∧ ∀ x ∈ chs, x.id = ch.id →
            { x with content := some res.content, title := res.title,
                     status := Status.completed, sourceUrl := res.sourceUrl,
                     errorMessage := none }
              ∈ (loadChapterContent oracle chs ch).1) := by
  refine ⟨?_, ?_, ?_, ?_, ?_⟩
  · intro y hy hid
    obtain ⟨x, hx, hxy⟩ := List.mem_map.mp hy
    by_cases h : x.id = ch.id
    · rw [← hxy]; simp [h]
    · rw [← hxy] at hid
      simp [h] at hid
  · intro x hx h
    exact List.mem_map.mpr ⟨x, hx, by simp [h]⟩
  · unfold loadChapterContent
    cases ho : oracle ch.number <;> simp [ho]
  · intro err herr
    constructor
    · simp [loadChapterContent, herr]
    · intro x hx hid
      rw [load_fst_eq_map]
      exact List.mem_map.mpr ⟨x, hx, by simp [stepOf, hid, herr]⟩
  · intro res hres
    constructor
    · simp [loadChapterContent, hres]
    · intro x hx hid
      rw [load_fst_eq_map]
      exact List.mem_map.mpr ⟨x, hx, by simp [stepOf, hid, hres]⟩

def w5Ch : Chapter :=
  { id := 3, number := 1, title := "T", content := none,
    status := Status.pending, errorMessage := none, sourceUrl := none }

def w5Oracle : Nat → Except OracleFailure ChapterOk :=
  fun _ => Except.error { message := some ("boom") }

/-- Witness for C5: a concrete failing fetch marks the record error with the
failure message and reports false. -/
theorem C5_loaderContract_witness :
    ({ w5Ch with status := Status.error, errorMessage := some ("boom") } : Chapter)
      ∈ (loadChapterContent w5Oracle [w5Ch] w5Ch).1
    ∧ (loadChapterContent w5Oracle [w5Ch] w5Ch).2 = false :=
  ⟨((C5_loaderContract w5Oracle [w5Ch] w5Ch).2.2.2.1 { message := some ("boom") } rfl).2
      w5Ch (List.mem_singleton_self w5Ch) rfl,
   ((C5_loaderContract w5Oracle [w5Ch] w5Ch).2.2.2.1 { message := some ("boom") } rfl).1⟩

/-- C7: if the cancellation flag is raised during iteration k of the batch
loop (the flag reads false through the check before iteration k and true
from the next read on — which covers a flag set during chapter k's fetch or
during the inter-fetch delay after it), then the run fetches exactly the
first k+1 chapters of toFetch (the k+2-nd fetch never starts even though it
exists), the final manifest is exactly the state after chapter k's outcome
was folded in (chapter k's captured result is left intact), the export step
is skipped, and the progress state is cleared on exit; an uncancelled run
also clears the progress state on exit (and does reach export). -/
theorem C7_cancellation (oracle : Nat → Except OracleFailure ChapterOk)
    (st : AppState) (s e k : Nat) (abortA abortB : Nat → Bool)
    (hA1 : ∀ j, j ≤ k → abortA j = false)
    (hA2 : ∀ j, k < j → abortA j = true)
    (hk : k + 1 < (toFetchOf st.chapters s e).length)
    (hB : ∀ j, abortB j = false) :
    (handleDownloadRange oracle abortA st s e).fetched
      = ((toFetchOf st.chapters s e).take (k + 1)).map (fun c => c.number)
    ∧ (handleDownloadRange oracle abortA st s e).finalChapters
      = st.chapters.map (compSteps oracle ((toFetchOf st.chapters s e).take (k + 1)))
    ∧ (handleDownloadRange oracle abortA st s e).exportAttempted = false
    ∧ (handleDownloadRange oracle abortA st s e).progress = none
    ∧ (handleDownloadRange oracle abortB st s e).exportAttempted = true
    ∧ (handleDownloadRange oracle abortB st s e).progress = none := by
  have htar : ¬ (targetOf st.chapters s e).length = 0 := by
    have hle : (toFetchOf st.chapters s e).length ≤ (targetOf st.chapters s e).length := by
      unfold toFetchOf
      exact List.length_filter_le _ _
    omega
  have hstopA : abortA (k + 1) = true := hA2 (k + 1) (by omega)
  have hloopA := batchLoop_abortAfter oracle abortA k 0 st.chapters (toFetchOf st.chapters s e)
      (fun j hj => by simpa using hA1 j hj) (by simpa using hstopA) (le_of_lt hk)
  have hloopB := batchLoop_of_false oracle abortB (toFetchOf st.chapters s e) 0 st.chapters hB
  have hA : handleDownloadRange oracle abortA st s e
      = { finalChapters :=
            st.chapters.map (compSteps oracle ((toFetchOf st.chapters s e).take (k + 1)))
          fetched := ((toFetchOf st.chapters s e).take (k + 1)).map (fun c => c.number)
          exportAttempted := false
          exportFile := none
          progress := none } := by
    unfold handleDownloadRange
    rw [if_neg htar]
    dsimp only
    rw [hloopA]
    dsimp only
    simp [hstopA]
  have hBexp : (handleDownloadRange oracle abortB st s e).exportAttempted = true := by
    unfold handleDownloadRange
    rw [if_neg htar]
    dsimp only
    rw [hloopB]
    dsimp only
    simp [hB]
  have hBprog : (handleDownloadRange oracle abortB st s e).progress = none := by
    unfold handleDownloadRange
    rw [if_neg htar]
  exact ⟨by rw [hA], by rw [hA], by rw [hA], by rw [hA], hBexp, hBprog⟩

def w7Ch (n : Nat) : Chapter :=
  { id := n, number := n, title := "Chapter " ++ toString n, content := none,
    status := Status.pending, errorMessage := none, sourceUrl := none }

def w7State : AppState :=
  { title := "N", author := "", totalChaptersEstimate := 3,
    chapters := [w7Ch 1, w7Ch 2, w7Ch 3], isFetchingList := false, currentChapterId := none }

def w7Oracle : Nat → Except OracleFailure ChapterOk :=
  fun n => Except.ok { content := "body", title := "T" ++ toString n, sourceUrl := none }

/-- Cancellation signal raised during iteration 0: reads false at the first
check and true from the second check on. -/
def w7Abort : Nat → Bool := fun j => decide (0 < j)

/-- Witness for C7 with the flag raised during the first fetch of a
three-chapter run. -/
theorem C7_cancellation_witness :
    (handleDownloadRange w7Oracle w7Abort w7State 1 3).fetched
      = ((toFetchOf w7State.chapters 1 3).take (0 + 1)).map (fun c => c.number)
    ∧ (handleDownloadRange w7Oracle w7Abort w7State 1 3).finalChapters
      = w7State.chapters.map (compSteps w7Oracle ((toFetchOf w7State.chapters 1 3).take (0 + 1)))
    ∧ (handleDownloadRange w7Oracle w7Abort w7State 1 3).exportAttempted = false
    ∧ (handleDownloadRange w7Oracle w7Abort w7State 1 3).progress = none
    ∧ (handleDownloadRange w7Oracle noAbort w7State 1 3).exportAttempted = true
    ∧ (handleDownloadRange w7Oracle noAbort w7State 1 3).progress = none :=
  C7_cancellation w7Oracle w7State 1 3 0 w7Abort noAbort
    (fun j hj => by
      have hj0 : j = 0 := Nat.le_zero.mp hj
      rw [hj0]; rfl)
    (fun j hj => by simp [w7Abort, hj])
    (by decide) (fun _ => rfl)

def c2Prior : Chapter :=
  { id := 7, number := 1, title := "Old chapter", content := some ("old body"),
    status := Status.completed, errorMessage := none, sourceUrl := none }

def c2State : AppState :=
  { title := "Old novel", author := "A", totalChaptersEstimate := 1,
    chapters := [c2Prior], isFetchingList := false, currentChapterId := some 7 }

/-- C2 counterexample: a search that reaches the oracle and fails with a
transport error leaves the manifest without its prior chapter records — the
chapters list is empty afterwards, because handleSearch clears it
optimistically before the oracle call resolves. -/
theorem C2_failedSearchClearsChapters :
    ¬ c2State.chapters = []
    ∧ (handleSearch (fun i => i) (Except.error { message := some ("network down") })
        "abcd" c2State).1.chapters = [] := by decide

/-- C2 amended: a search rejected by validation (empty or too-short trimmed
input) leaves the whole state unchanged; but every search that reaches the
oracle clears the existing chapters first, so a failure at resolution
(transport failure, not-found, or any other error) ends with an empty
chapters list rather than the prior manifest; only a new successful
resolution installs chapter records. -/
theorem C2_manifestOnFailedSearch (ids : Nat → Nat)
    (oracleRes : Except OracleFailure Metadata) (input : String) (st : AppState) :
    (jsTrim input = "" →
      handleSearch ids oracleRes input st = (st, some ("Please enter a novel name.")))
    ∧ (¬ jsTrim input = "" → (jsTrim input).length < 2 →
      handleSearch ids oracleRes input st
        = (st, some ("Novel name is too short. Please enter a valid name.")))
    ∧ (2 ≤ (jsTrim input).length → ∀ err, oracleRes = Except.error err →
      (handleSearch ids oracleRes input st).1.chapters = [])
    ∧ (2 ≤ (jsTrim input).length → ∀ md, oracleRes = Except.ok md → md.«exists» = false →
      (handleSearch ids oracleRes input st).1.chapters = [])
    ∧ (2 ≤ (jsTrim input).length → ∀ md, oracleRes = Except.ok md → md.«exists» = true →
      (handleSearch ids oracleRes input st).1.chapters
        = buildChapters ids (jsOrNat md.totalChapters 100) md.chapterTitles) := by
  refine ⟨?_, ?_, ?_, ?_, ?_⟩
  · intro h
    unfold handleSearch
    rw [if_pos h]
  · intro h1 h2
    unfold handleSearch
    rw [if_neg h1, if_pos h2]
  · intro hlen err herr
    unfold handleSearch
    rw [if_neg (by intro h; rw [h] at hlen; simp at hlen), if_neg (by omega), herr]
  · intro hlen md hmd hex
    unfold handleSearch
    rw [if_neg (by intro h; rw [h] at hlen; simp at hlen), if_neg (by omega), hmd]
    dsimp only
    rw [hex]
    simp
  · intro hlen md hmd hex
    unfold handleSearch
    rw [if_neg (by intro h; rw [h] at hlen; simp at hlen), if_neg (by omega), hmd]
    dsimp only
    rw [hex]
    simp

/-- Witness for C2 amended: a concrete too-short input is rejected with the
state unchanged, and a concrete transport failure leaves the chapters
empty. -/
theorem C2_manifestOnFailedSearch_witness :
    (handleSearch (fun i => i) (Except.error { message := none }) "x" c2State
      = (c2State, some ("Novel name is too short. Please enter a valid name.")))
    ∧ (handleSearch (fun i => i) (Except.error { message := none }) "abcd" c2State).1.chapters
        = [] :=
  ⟨(C2_manifestOnFailedSearch (fun i => i) (Except.error { message := none }) "x" c2State).2.1
      (by decide) (by decide),
   (C2_manifestOnFailedSearch (fun i => i) (Except.error { message := none }) "abcd" c2State).2.2.1
      (by decide) { message := none } rfl⟩

def c6Loading : Chapter :=
  { id := 1, number := 1, title := "Chapter 1", content := none,
    status := Status.loading, errorMessage := none, sourceUrl := none }

def c6State : AppState :=
  { title := "N", author := "", totalChaptersEstimate := 1,
    chapters := [c6Loading], isFetchingList := false, currentChapterId := some 1 }

def c6Oracle : Nat → Except OracleFailure ChapterOk :=
  fun n => Except.ok { content := "body", title := "T" ++ toString n, sourceUrl := none }

/-- C6 counterexample: a record that is already loading at selection time
(its fetch is still in flight, so its content is still absent) is selected
into toFetch and is fetched by the batch loop — the batch path checks
content, not status. -/
theorem C6_loadingRecordFetched :
    c6Loading.status = Status.loading
    ∧ c6Loading ∈ toFetchOf c6State.chapters 1 1
    ∧ (handleDownloadRange c6Oracle noAbort c6State 1 1).fetched = [1] := by decide

/-- C6 amended: the batch path excludes from toFetch exactly the records
with JS-truthy content — in particular every completed record, whose content
is always present — and the loop only ever fetches a prefix of toFetch, so
the Loader is never invoked on a completed record during a batch run; but
the check is on content, not status, so a record in status loading (or
error) without content is selected. -/
theorem C6_toFetchExcludesCompleted (oracle : Nat → Except OracleFailure ChapterOk)
    (abort : Nat → Bool) (st : AppState) (s e : Nat)
    (hcc : ∀ c ∈ st.chapters, c.status = Status.completed → strTruthy c.content = true) :
    (∀ c ∈ toFetchOf st.chapters s e,
      strTruthy c.content = false ∧ ¬ c.status = Status.completed)
    ∧ ∃ m, (handleDownloadRange oracle abort st s e).fetched
        = ((toFetchOf st.chapters s e).take m).map (fun c => c.number) := by
  constructor
  · intro c hc
    have h1 := List.mem_filter.mp hc
    have h2 := List.mem_filter.mp h1.1
    have hcontent : strTruthy c.content = false := by
      have := h1.2
      simpa using this
    refine ⟨hcontent, fun hcomp => ?_⟩
    rw [hcc c h2.1 hcomp] at hcontent
    exact Bool.true_eq_false.mp hcontent
  · unfold handleDownloadRange
    by_cases htar : (targetOf st.chapters s e).length = 0
    · rw [if_pos htar]
      exact ⟨0, by simp⟩
    · rw [if_neg htar]
      dsimp only
      exact batchLoop_fetched_prefix oracle abort (toFetchOf st.chapters s e) 0 st.chapters

/-- Witness for C6 amended on a concrete manifest with one completed and one
pending record. -/
theorem C6_toFetchExcludesCompleted_witness :
    (∀ c ∈ toFetchOf w4State.chapters 1 2,
      strTruthy c.content = false ∧ ¬ c.status = Status.completed)
    ∧ ∃ m, (handleDownloadRange w4Oracle noAbort w4State 1 2).fetched
        = ((toFetchOf w4State.chapters 1 2).take m).map (fun c => c.number) :=
  C6_toFetchExcludesCompleted w4Oracle noAbort w4State 1 2 (by decide)

def scnChapter (n : Nat) : Chapter :=
  { id := n, number := n, title := "Chapter " ++ toString n, content := none,
    status := Status.pending, errorMessage := none, sourceUrl := none }

def scnState : AppState :=
  { title := "Novel", author := "Auth", totalChaptersEstimate := 5,
    chapters := [scnChapter 1, scnChapter 2, scnChapter 3, scnChapter 4, scnChapter 5],
    isFetchingList := false, currentChapterId := some 1 }

def scnOracle : Nat → Except OracleFailure ChapterOk := fun n =>
  if n = 3 then Except.error { message := some ("Chapter content unavailable.") }
  else Except.ok { content := "Body " ++ toString n, title := "Title " ++ toString n,
                   sourceUrl := none }

/-- C3: the spec's scenario run on the code.  Five pending chapters, batch
over the range 1..5, the oracle resolves chapters 1,2,4,5 and fails chapter
3.  The final manifest is as the claim expects (1,2,4,5 completed, 3 error)
and the export step does run — but it reads the chapters list captured by
the closure at batch start, where no chapter has content yet, so it takes
the empty-export error path and produces no file (exportFile = none)
instead of a 4-section document.  Had it read the manifest state current at
export time, it would have produced exactly the sections 1,2,4,5 in order,
as the last conjunct shows. -/
theorem C3_exportReadsStaleState :
    ((handleDownloadRange scnOracle noAbort scnState 1 5).finalChapters.map (fun c => c.status)
      = [Status.completed, Status.completed, Status.error, Status.completed, Status.completed])
    ∧ (handleDownloadRange scnOracle noAbort scnState 1 5).exportAttempted = true
    ∧ (handleDownloadRange scnOracle noAbort scnState 1 5).exportFile = none
    ∧ generateRangeDownload scnState.title scnState.author scnState.chapters 1 5 = none
    ∧ (sortedValidOf (handleDownloadRange scnOracle noAbort scnState 1 5).finalChapters 1 5).map
        (fun c => c.number) = [1, 2, 4, 5]
    ∧ ¬ generateRangeDownload scnState.title scnState.author
          (handleDownloadRange scnOracle noAbort scnState 1 5).finalChapters 1 5 = none := by
  decide

lemma handleSearch_ok_chapters (ids : Nat → Nat) (md : Metadata) (input : String)
    (st : AppState) (hlen : 2 ≤ (jsTrim input).length) (hex : md.«exists» = true) :
    (handleSearch ids (Except.ok md) input st).1.chapters
      = buildChapters ids (jsOrNat md.totalChapters 100) md.chapterTitles := by
  unfold handleSearch
  rw [if_neg (by intro h; rw [h] at hlen; simp at hlen), if_neg (by omega)]
  dsimp only
  rw [hex]
  simp

lemma buildChapters_length (ids : Nat → Nat) (n : Nat) (titles : List String) :
    (buildChapters ids n titles).length = n := by
  simp [buildChapters]

lemma buildChapters_getElem? (ids : Nat → Nat) (n : Nat) (titles : List String)
    (i : Nat) (h : i < n) :
    (buildChapters ids n titles)[i]?
      = some { id := ids i, number := i + 1,
               title := if hh : i < titles.length then titles.get ⟨i, hh⟩
                        else ("Chapter " ++ toString (i + 1)),
               content := none, status := Status.pending,
               errorMessage := none, sourceUrl := none } := by
  unfold buildChapters
  rw [List.getElem?_map, List.getElem?_range h]
  rfl

def c8Meta : Metadata :=
  { «exists» := true, title := "T", author := "A", totalChapters := some 0,
    chapterTitles := [] }

/-- C8 counterexample: a successful resolution whose oracle-supplied
totalChapters is the number 0 builds 100 records, not 0 — so the manifest
does not consist of exactly totalChapters records in this case. -/
theorem C8_zeroEstimateCounterexample :
    c8Meta.totalChapters = some 0
    ∧ ((handleSearch (fun i => i) (Except.ok c8Meta) "abcd" c2State).1.chapters).length = 100
    ∧ ¬ ((handleSearch (fun i => i) (Except.ok c8Meta) "abcd" c2State).1.chapters).length = 0 := by
  decide

/-- C8 amended: on a successful resolution the builder constructs exactly
jsOrNat totalChapters 100 records — totalChapters when the estimate is a
nonzero number, 100 when it is omitted or zero — numbered contiguously 1..N,
with unique ids (given an injective id supply, modelling collision-free
UUIDs), each pending and without content, and each titled by the
chapterTitles entry at its position when available, else the placeholder. -/
theorem C8_manifestConstruction (ids : Nat → Nat) (md : Metadata) (input : String)
    (st : AppState) (hex : md.«exists» = true) (hinj : Function.Injective ids)
    (hlen : 2 ≤ (jsTrim input).length) :
    ((handleSearch ids (Except.ok md) input st).1.chapters).length
      = jsOrNat md.totalChapters 100
    ∧ ((md.totalChapters = none ∨ md.totalChapters = some 0) →
        jsOrNat md.totalChapters 100 = 100)
    ∧ (∀ n, md.totalChapters = some n → ¬ n = 0 → jsOrNat md.totalChapters 100 = n)
    ∧ ((handleSearch ids (Except.ok md) input st).1.chapters).map (fun c => c.number)
        = (List.range (jsOrNat md.totalChapters 100)).map (fun i => i + 1)
    ∧ (((handleSearch ids (Except.ok md) input st).1.chapters).map (fun c => c.id)).Nodup
    ∧ (∀ c ∈ (handleSearch ids (Except.ok md) input st).1.chapters,
        c.status = Status.pending ∧ c.content = none)
    ∧ (∀ i, i < jsOrNat md.totalChapters 100 →
        ((handleSearch ids (Except.ok md) input st).1.chapters)[i]?
          = some { id := ids i, number := i + 1,
                   title := if hh : i < md.chapterTitles.length then md.chapterTitles.get ⟨i, hh⟩
                            else ("Chapter " ++ toString (i + 1)),
                   content := none, status := Status.pending,
                   errorMessage := none, sourceUrl := none }) := by
  rw [handleSearch_ok_chapters ids md input st hlen hex]
  refine ⟨buildChapters_length ids _ _, ?_, ?_, ?_, ?_, ?_, ?_⟩
  · rintro (h | h) <;> rw [h] <;> rfl
  · intro n hn h0
    rw [hn]
    simp [jsOrNat, h0]
  · simp only [buildChapters, List.map_map]
    rfl
  · have hm : (buildChapters ids (jsOrNat md.totalChapters 100) md.chapterTitles).map
        (fun c => c.id) = (List.range (jsOrNat md.totalChapters 100)).map ids := by
      simp only [buildChapters, List.map_map]
      rfl
    rw [hm]
    exact List.Nodup.map hinj (List.nodup_range _)
  · intro c hc
    obtain ⟨i, _, rfl⟩ := List.mem_map.mp hc
    exact ⟨rfl, rfl⟩
  · intro i hi
    exact buildChapters_getElem? ids _ md.chapterTitles i hi

def w8Meta : Metadata :=
  { «exists» := true, title := "T", author := "A", totalChapters := some 2,
    chapterTitles := ["First"] }

/-- Witness for C8 amended on a concrete two-chapter resolution. -/
theorem C8_manifestConstruction_witness :
    ((handleSearch (fun i => i) (Except.ok w8Meta) "abcd" c2State).1.chapters).length
      = jsOrNat w8Meta.totalChapters 100
    ∧ ((w8Meta.totalChapters = none ∨ w8Meta.totalChapters = some 0) →
        jsOrNat w8Meta.totalChapters 100 = 100)
    ∧ (∀ n, w8Meta.totalChapters = some n → ¬ n = 0 → jsOrNat w8Meta.totalChapters 100 = n)
    ∧ ((handleSearch (fun i => i) (Except.ok w8Meta) "abcd" c2State).1.chapters).map
        (fun c => c.number)
        = (List.range (jsOrNat w8Meta.totalChapters 100)).map (fun i => i + 1)
    ∧ (((handleSearch (fun i => i) (Except.ok w8Meta) "abcd" c2State).1.chapters).map
        (fun c => c.id)).Nodup
    ∧ (∀ c ∈ (handleSearch (fun i => i) (Except.ok w8Meta) "abcd" c2State).1.chapters,
        c.status = Status.pending ∧ c.content = none)
    ∧ (∀ i, i < jsOrNat w8Meta.totalChapters 100 →
        ((handleSearch (fun i => i) (Except.ok w8Meta) "abcd" c2State).1.chapters)[i]?
          = some { id := i, number := i + 1,
                   title := if hh : i < w8Meta.chapterTitles.length
                            then w8Meta.chapterTitles.get ⟨i, hh⟩
                            else ("Chapter " ++ toString (i + 1)),
                   content := none, status := Status.pending,
                   errorMessage := none, sourceUrl := none }) :=
  C8_manifestConstruction (fun i => i) w8Meta ("abcd") c2State rfl (fun _ _ h => h) (by decide)

/-- C10: a successful resolution reporting totalChapters = 0 is treated
exactly as if the estimate were omitted — 100 chapter records are built, and
the chapters are identical to those built from the same metadata with the
estimate absent. -/
theorem C10_zeroEstimateDefaults (ids : Nat → Nat) (md : Metadata) (input : String)
    (st : AppState) (hex : md.«exists» = true) (h0 : md.totalChapters = some 0)
    (hlen : 2 ≤ (jsTrim input).length) :
    ((handleSearch ids (Except.ok md) input st).1.chapters).length = 100
    ∧ (handleSearch ids (Except.ok md) input st).1.chapters
        = (handleSearch ids (Except.ok { md with totalChapters := none }) input st).1.chapters := by
  have h1 := handleSearch_ok_chapters ids md input st hlen hex
  have h2 := handleSearch_ok_chapters ids { md with totalChapters := none } input st hlen hex
  rw [h1, h2, h0]
  constructor
  · rw [buildChapters_length]
    rfl
  · rfl

/-- Witness for C10 at a concrete zero-estimate resolution. -/
theorem C10_zeroEstimateDefaults_witness :
    ((handleSearch (fun i => i) (Except.ok c8Meta) "abcd" c2State).1.chapters).length = 100
    ∧ (handleSearch (fun i => i) (Except.ok c8Meta) "abcd" c2State).1.chapters
        = (handleSearch (fun i => i) (Except.ok { c8Meta with totalChapters := none })
            "abcd" c2State).1.chapters :=
  C10_zeroEstimateDefaults (fun i => i) c8Meta ("abcd") c2State rfl rfl (by decide)

/-- C9: the export compiler filters to in-range records with non-absent
(JS-truthy) content; it yields none — the empty-export error, no file —
exactly when that selection is empty; otherwise it produces one document
made of the header followed by one section per content-bearing record (the
sections traverse a permutation of the selection, sorted by chapter number
ascending, strictly so when the numbers are distinct); every record it reads
is a member of the input manifest unchanged — no record is mutated. -/
theorem C9_exportCompiler (title author : String) (chapters : List Chapter) (s e : Nat) :
    (generateRangeDownload title author chapters s e = none
      ↔ validChaptersOf chapters s e = [])
    ∧ (∀ c ∈ validChaptersOf chapters s e,
        c ∈ chapters ∧ s ≤ c.number ∧ c.number ≤ e ∧ strTruthy c.content = true)
    ∧ (sortedValidOf chapters s e).Perm (validChaptersOf chapters s e)
    ∧ List.Sorted chapterLE (sortedValidOf chapters s e)
    ∧ (¬ validChaptersOf chapters s e = [] →
        generateRangeDownload title author chapters s e
          = some (exportHeader title author s e
              ++ String.join ((sortedValidOf chapters s e).map sectionText)))
    ∧ (List.Pairwise (fun a b : Chapter => ¬ a.number = b.number) (validChaptersOf chapters s e) →
        List.Sorted (fun a b : Chapter => a.number < b.number) (sortedValidOf chapters s e)) := by
  refine ⟨?_, ?_, List.perm_insertionSort chapterLE _, List.sorted_insertionSort chapterLE _,
    ?_, ?_⟩
  · constructor
    · intro hnone
      by_cases h : (validChaptersOf chapters s e).length = 0
      · exact List.length_eq_zero.mp h
      · unfold generateRangeDownload at hnone
        rw [if_neg h] at hnone
        exact absurd hnone (by simp)
    · intro hempty
      unfold generateRangeDownload
      rw [if_pos (by rw [hempty]; rfl)]
  · intro c hc
    have h1 := List.mem_filter.mp hc
    have h2 := List.mem_filter.mp h1.1
    have hr := h2.2
    simp only [Bool.and_eq_true, decide_eq_true_eq] at hr
    exact ⟨h2.1, hr.1, hr.2, h1.2⟩
  · intro hne
    unfold generateRangeDownload
    rw [if_neg (fun h => hne (List.length_eq_zero.mp h))]
  · intro hpair
    have hperm := List.perm_insertionSort chapterLE (validChaptersOf chapters s e)
    have hsorted : List.Pairwise chapterLE (sortedValidOf chapters s e) :=
      List.sorted_insertionSort chapterLE (validChaptersOf chapters s e)
    have hsymm : ∀ {x y : Chapter}, (¬ x.number = y.number) → ¬ y.number = x.number :=
      fun h hyx => h hyx.symm
    have hpair2 : List.Pairwise (fun a b : Chapter => ¬ a.number = b.number)
        (sortedValidOf chapters s e) := (List.Perm.pairwise_iff hsymm hperm).mpr hpair
    exact (List.Pairwise.and hsorted hpair2).imp
      (fun h => Nat.lt_of_le_of_ne h.1 h.2)

/-- Witness for C9: a concrete export of a one-record selection produces the
header followed by its section. -/
theorem C9_exportCompiler_witness :
    generateRangeDownload ("T") ("A") [w4Done] 1 2
      = some (exportHeader ("T") ("A") 1 2
          ++ String.join ((sortedValidOf [w4Done] 1 2).map sectionText)) :=
  (C9_exportCompiler ("T") ("A") [w4Done] 1 2).2.2.2.2.1 (by decide)
